import Mathlib

/-!
Verification of the cotk repository: shallow embeddings of
`cotk/_utils/utils.py`, `cotk/_utils/metaclass.py`,
`cotk/dataloader/single_turn_dialog.py` and the CLI config behaviour,
with theorems settling the specification claims.
-/

set_option autoImplicit false

namespace Cotk

/-! ### Embedding of `cotk/_utils/utils.py` -/

/-- Embeds `trim_before_target` from `cotk/_utils/utils.py`:
`lists[:lists.index(target)]`, returning the original list when
`lists.index` raises `ValueError` (target absent). -/
def trim_before_target (lists : List Nat) (target : Nat) : List Nat :=
  match lists.findIdx? (fun x => x == target) with
  | some i => lists.take i
  | none => lists

/-- Embeds `chain_sessions` from `cotk/_utils/utils.py`:
`(list(chain(*sessions)), [len(session) for session in sessions])`. -/
def chain_sessions {α : Type} (sessions : List (List α)) : List α × List Nat :=
  (sessions.flatten, sessions.map List.length)

/-- Loop body of `restore_sessions`: for each `session_length`,
append `chained_sessions[last : last + session_length]` and advance `last`. -/
def restore_sessions_go {α : Type} (chained : List α) (lengths : List Nat)
    (last : Nat) : List (List α) :=
  match lengths with
  | [] => []
  | n :: rest => ((chained.drop last).take n) :: restore_sessions_go chained rest (last + n)

/-- Embeds `restore_sessions` from `cotk/_utils/utils.py`. -/
def restore_sessions {α : Type} (chained : List α) (lengths : List Nat) :
    List (List α) :=
  restore_sessions_go chained lengths 0

/-- Embeds `replace_unk` from `cotk/_utils/utils.py`:
`[[target_token if token == unk_token else token for token in sentence]
for sentence in sentences]`; the Python default for `target_token` is `-1`,
so tokens are modelled as integers. -/
def replace_unk (sentences : List (List Int)) (unk_token : Int)
    (target_token : Int) : List (List Int) :=
  sentences.map (fun sentence =>
    sentence.map (fun token => if token == unk_token then target_token else token))

/-! ### Batch padding and vocabulary remapping of `SingleTurnDialog.get_batch`

`SingleTurnDialog.get_batch` delegates to `LanguageProcessing.get_batch`
(`dataloader/dataloader.py`), whose implementation is not among the sources;
its behaviour is documented in `SingleTurnDialog._GET_BATCH_MORE_DOC`,
`_GET_BATCH_EXAMPLE` and the spec, from which the following are modelled. -/

/-- Modelled from the spec: `max(sent_length)` of a batch, as used in
`SingleTurnDialog._GET_BATCH_MORE_DOC` (the padding code of
`dataloader/dataloader.py` and `dataloader/field.py` is missing from the
sources). -/
def max_sent_length (sentences : List (List Nat)) : Nat :=
  (sentences.map List.length).foldr max 0

/-- Modelled from the spec: the 2-d padded batch array of
`SingleTurnDialog._GET_BATCH_MORE_DOC`: each sentence of the batch extended
with the padding id up to the maximum sentence length of the batch, as shown
in `_GET_BATCH_EXAMPLE` (pads with `<pad>`). -/
def pad_batch (sentences : List (List Nat)) (pad_id : Nat) : List (List Nat) :=
  sentences.map
    (fun s => s ++ List.replicate (max_sent_length sentences - s.length) pad_id)

/-- Modelled from the spec: the 1-d length array (`post_length` /
`resp_length`) of `SingleTurnDialog._GET_BATCH_MORE_DOC`: the length of each
sentence in the batch. -/
def batch_sent_lengths (sentences : List (List Nat)) : List Nat :=
  sentences.map List.length

/-- Modelled from the spec: the step producing `post` (and `resp`) from
`post_allvocabs` (and `resp_allvocabs`) in
`SingleTurnDialog._GET_BATCH_MORE_DOC`: only valid words are provided, and
`unk_id` is used if a word is not valid; an id is valid when it is below the
frequent vocabulary size, as shown in `_GET_BATCH_EXAMPLE`. -/
def remove_invalid_vocab (ids : List (List Nat)) (frequent_vocab_size : Nat)
    (unk_id : Nat) : List (List Nat) :=
  ids.map (fun s => s.map (fun t => if frequent_vocab_size ≤ t then unk_id else t))

/-! ### Embedding of `SingleTurnDialog.__init__`
(`cotk/dataloader/single_turn_dialog.py`) -/

/-- The observable construction state of a `SingleTurnDialog`:
whether `self._pretrained` has been recorded (and with which value), whether
the delegated `LanguageProcessing.__init__` ran (setting up the fields and
vocabulary), and whether `set_default_field` ran. -/
structure DlState where
  pretrainedRecorded : Option (Option String)
  fieldsInitialized : Bool
  defaultFieldSet : Bool
deriving DecidableEq

/-- Embeds `SingleTurnDialog.__init__`: the tokenizer argument is
represented by whether it is a `PretrainedTokenizer` instance; the delegated
`LanguageProcessing.__init__` and `set_default_field` calls (absent from the
sources) are abstracted as the two flags of `DlState`. The result pairs the
state reached with the message of the raised `ValueError`, if any. -/
def single_turn_dialog_init (pretrained : Option String)
    (tokenizer_is_pretrained : Bool) : DlState × Option String :=
  let st : DlState :=
    { pretrainedRecorded := some pretrained,
      fieldsInitialized := false,
      defaultFieldSet := false }
  match pretrained with
  | none => ({ st with fieldsInitialized := true, defaultFieldSet := true }, none)
  | some p =>
    if p = "gpt2" then
      if !tokenizer_is_pretrained then
        (st, some "tokenize should be loaded first if you want a gpt2 dataloader")
      else
        ({ st with fieldsInitialized := true, defaultFieldSet := true }, none)
    else
      (st, some ("No pretrained name " ++ p))

/-! ### Embedding of `DocStringInheritor.__new__`
(`cotk/_utils/metaclass.py`) -/

/-- A class as seen by the docstring-inheritance machinery: its name, its
`META_DOC`, the attributes it has (`hasattr`), and its
`META_DOC_FOR_ATTRIBUTES` table. -/
structure PyClass where
  name : String
  metaDoc : Option String
  attrs : List String
  attrMetaDocs : List (String × String)
deriving DecidableEq

/-- Python truthiness of a docstring value: truthy exactly when present and
non-empty (`None` and `""` are both falsy). -/
def truthy_doc : Option String → Bool
  | some s => s != ""
  | none => false

/-- The class-docstring inheritance loop of `DocStringInheritor.__new__`:
`for mro_cls in (mro_cls for base in bases for mro_cls in base.mro()):
if mro_cls.META_DOC: clsdict['__doc__'] = mro_cls.META_DOC; break` — given
the flattened iteration order, picks the first truthy `META_DOC`, leaving
the doc unchanged when none is found. -/
def class_doc_loop (mros : List PyClass) (doc : Option String) : Option String :=
  match mros with
  | [] => doc
  | c :: rest => if truthy_doc c.metaDoc then c.metaDoc else class_doc_loop rest doc

/-- Embeds the class-docstring inheritance step of `DocStringInheritor.__new__`
(`if not('__doc__' in clsdict and clsdict['__doc__']): ...`): `bases_mros`
lists, for each declared base in order, its `mro()`. The placeholder
substitution applied afterwards is outside this model. -/
def inherit_class_doc (clsdict_doc : Option String)
    (bases_mros : List (List PyClass)) : Option String :=
  if truthy_doc clsdict_doc then clsdict_doc
  else class_doc_loop bases_mros.flatten clsdict_doc

/-- The per-attribute inheritance loop of `DocStringInheritor.__new__`:
iterate over the MRO classes having the attribute (`hasattr` filter) and take
`META_DOC_FOR_ATTRIBUTES[attr]` from the first whose table contains the
attribute; the `for ... else` branch yields `""` when no base provides one. -/
def attr_doc_loop (mros : List PyClass) (attr : String) : String :=
  match mros with
  | [] => ""
  | c :: rest =>
    if c.attrs.contains attr then
      match c.attrMetaDocs.find? (fun kv => kv.1 == attr) with
      | some kv => kv.2
      | none => attr_doc_loop rest attr
    else attr_doc_loop rest attr

/-- Embeds the attribute-docstring inheritance step of
`DocStringInheritor.__new__` (`if not doc: ...` followed by the MRO loop):
a truthy attribute docstring is kept, otherwise it is inherited. -/
def inherit_attr_doc (attr_doc : Option String) (attr : String)
    (bases_mros : List (List PyClass)) : String :=
  if truthy_doc attr_doc then attr_doc.getD ""
  else attr_doc_loop bases_mros.flatten attr

/-! ### Embedding of `LoadClassInterface` (`cotk/_utils/metaclass.py`) -/

/-- A class in a `LoadClassInterface` hierarchy: its name, the file it is
located in (`inspect.getfile`), and its direct subclasses
(`cls.__subclasses__()`). -/
inductive ClassTree where
  | node : String → String → List ClassTree → ClassTree

/-- The class name. -/
def ClassTree.name : ClassTree → String
  | .node n _ _ => n

/-- The file the class is located in. -/
def ClassTree.file : ClassTree → String
  | .node _ f _ => f

/-- The direct subclasses, `cls.__subclasses__()`. -/
def ClassTree.direct_subclasses : ClassTree → List ClassTree
  | .node _ _ subs => subs

mutual

/-- The body of `LoadClassInterface.get_all_subclasses` for one subclass:
`yield from subclass.get_all_subclasses(); yield subclass`. -/
def get_all_subclasses_tree : ClassTree → List ClassTree
  | ClassTree.node n f subs =>
    get_all_subclasses_list subs ++ [ClassTree.node n f subs]

/-- The recursion of `LoadClassInterface.get_all_subclasses` over a list of
direct subclasses. -/
def get_all_subclasses_list : List ClassTree → List ClassTree
  | [] => []
  | c :: rest => get_all_subclasses_tree c ++ get_all_subclasses_list rest

end

/-- Embeds `LoadClassInterface.get_all_subclasses`. -/
def get_all_subclasses (cls : ClassTree) : List ClassTree :=
  get_all_subclasses_list cls.direct_subclasses

/-- Models Python `str.lower` on a character: class names are ASCII, where
`lower` maps `A`-`Z` to `a`-`z` and leaves the rest unchanged. -/
def lower_char (c : Char) : Char :=
  if 65 ≤ c.toNat ∧ c.toNat ≤ 90 then Char.ofNat (c.toNat + 32) else c

/-- Models Python `str.lower` on a class-name string. -/
def lower_string (s : String) : String :=
  String.mk (s.data.map lower_char)

/-- The loop of `LoadClassInterface.load_class`: scan the subclasses for a
case-insensitive name match; on a second match raise `RuntimeError`
(modelled as `Except.error`), otherwise return the accumulated `result`. -/
def load_class_loop (subclasses : List ClassTree) (class_name : String)
    (result : Option ClassTree) : Except String (Option ClassTree) :=
  match subclasses with
  | [] => .ok result
  | c :: rest =>
    if lower_string c.name == lower_string class_name then
      match result with
      | none => load_class_loop rest class_name (some c)
      | some r =>
        .error ("There are two classes with the name \"" ++ class_name
          ++ "\" located at \"" ++ r.file ++ "\" and \"" ++ c.file
          ++ "\". You have to remove one of them to make \"load_class\" work normally.")
    else load_class_loop rest class_name result

/-- Embeds `LoadClassInterface.load_class`: the final `return result` (which
may be `None`) is modelled as `Except.ok`. -/
def load_class (cls : ClassTree) (class_name : String) :
    Except String (Option ClassTree) :=
  load_class_loop (get_all_subclasses cls) class_name none

/-- Whether a `load_class` outcome is a raised exception. -/
def is_load_error {α : Type} : Except String α → Bool
  | .error _ => true
  | .ok _ => false

/-- A hierarchy with two distinct subclasses whose names coincide
case-insensitively. -/
def demo_dup_hierarchy : ClassTree :=
  .node "LanguageProcessing" "dataloader.py"
    [.node "SingleTurnDialog" "single_turn_dialog.py"
      [.node "OpenSubtitles" "single_turn_dialog.py" []],
     .node "opensubtitles" "contrib.py" []]

/-- A hierarchy with a single subclass, used for the no-match behaviour. -/
def demo_hierarchy : ClassTree :=
  .node "LanguageProcessing" "dataloader.py"
    [.node "SingleTurnDialog" "single_turn_dialog.py" []]

/-- A demo class whose `META_DOC` is empty (Python-falsy). -/
def demo_empty_class : PyClass :=
  { name := "Dataloader", metaDoc := some "", attrs := ["get_batch"],
    attrMetaDocs := [] }

/-- A demo base class providing a class docstring and an attribute
docstring. -/
def demo_base_class : PyClass :=
  { name := "LanguageProcessing", metaDoc := some "base doc",
    attrs := ["get_batch"], attrMetaDocs := [("get_batch", "gb doc")] }

/-- A demo `bases` list with a single base whose MRO holds the two demo
classes. -/
def demo_bases_mros : List (List PyClass) := [[demo_empty_class, demo_base_class]]

/-! ### Vocabulary tiers (modelled from the spec) -/

/-- The three vocabulary tiers of the spec: frequent (valid), rare
(invalid), and unknown. -/
inductive VocabTier where
  | frequent
  | rare
  | unknown
deriving DecidableEq

/-- Modelled from the spec: the tier of a token given its occurrence counts
(the `Vocabulary` class of `dataloader/vocab.py` is missing from the
sources): tokens appearing at least `min_frequent_vocab_times` in the
training set are frequent; of the rest, those appearing at least
`min_rare_vocab_times` in the whole dataset are rare; all others are
unknown. -/
def vocab_tier (train_count total_count : Nat)
    (min_frequent_vocab_times min_rare_vocab_times : Nat) : VocabTier :=
  if min_frequent_vocab_times ≤ train_count then .frequent
  else if min_rare_vocab_times ≤ total_count then .rare
  else .unknown

/-- Modelled from the spec: tier of a token obtained by counting its
occurrences in the tokenized training set and in the whole dataset. -/
def corpus_vocab_tier (train_set whole_set : List (List Nat))
    (min_frequent_vocab_times min_rare_vocab_times tok : Nat) : VocabTier :=
  vocab_tier (train_set.flatten.count tok) (whole_set.flatten.count tok)
    min_frequent_vocab_times min_rare_vocab_times

/-! ### CLI config store (modelled from the spec) -/

/-- Modelled from the spec: the CLI config store as a key-value table
(`cotk/scripts/config.py` is missing from the sources). Dispatching
`config set key w1 w2 ...` records for `key` the words joined by single
spaces. -/
def config_set (store : List (String × String)) (key : String)
    (words : List String) : List (String × String) :=
  (key, String.intercalate " " words) :: store.filter (fun kv => kv.1 != key)

/-- Modelled from the spec: `config_load(key)` returns the stored value for
`key`, or `None` when no value was set. -/
def config_load (store : List (String × String)) (key : String) : Option String :=
  (store.find? (fun kv => kv.1 == key)).map Prod.snd

/-! ### Theorems for the utils claims -/

theorem length_le_max_sent_length (sentences : List (List Nat)) (s : List Nat)
    (hs : s ∈ sentences) : s.length ≤ max_sent_length sentences := by
  induction sentences with
  | nil => cases hs
  | cons a rest ih =>
    simp only [max_sent_length, List.map_cons, List.foldr_cons]
    rcases List.mem_cons.mp hs with h | h
    · subst h
      exact Nat.le_max_left _ _
    · exact le_trans (ih h) (Nat.le_max_right _ _)

/-- Claim C1: every 2-d array returned by `get_batch` has uniform row length
within the batch: the padded batch has `batch_size` rows, every row has
length `max(sent_length)` of that batch, and the 1-d length array has size
`batch_size`. -/
theorem claim_C1_padded_batch_uniform (sentences : List (List Nat))
    (pad_id : Nat) :
    (pad_batch sentences pad_id).length = sentences.length
      ∧ (∀ row ∈ pad_batch sentences pad_id,
          row.length = max_sent_length sentences)
      ∧ (batch_sent_lengths sentences).length = sentences.length := by
  refine ⟨by simp [pad_batch], ?_, by simp [batch_sent_lengths]⟩
  intro row hrow
  simp only [pad_batch, List.mem_map] at hrow
  obtain ⟨s, hs, rfl⟩ := hrow
  have hle := length_le_max_sent_length sentences s hs
  simp only [List.length_append, List.length_replicate]
  omega

/-- Claim C1 witness at a concrete batch of two sentences: the short row is
padded to the maximum length 3. -/
theorem claim_C1_witness :
    [4, 0, 0] ∈ pad_batch [[1, 2, 3], [4]] 0
      ∧ ([4, 0, 0] : List Nat).length = max_sent_length [[1, 2, 3], [4]] :=
  ⟨by decide,
    (claim_C1_padded_batch_uniform [[1, 2, 3], [4]] 0).2.1 [4, 0, 0] (by decide)⟩

/-- Claim C2: `replace_unk` preserves the shape of the sentence list and
replaces exactly the tokens equal to `unk_token` by `target_token`, leaving
every other token unchanged; correspondingly the modelled `post`/`resp`
arrays represent every invalid word (id at or above the frequent vocabulary
size) by the single reserved `unk_id` and keep every valid word unchanged. -/
theorem claim_C2_replace_unk (sentences : List (List Int))
    (unk_token target_token : Int) (ids : List (List Nat))
    (frequent_vocab_size unk_id : Nat) :
    (replace_unk sentences unk_token target_token).length = sentences.length
      ∧ List.Forall₂ (fun s t => s.length = t.length
            ∧ List.Forall₂ (fun a b => (a = unk_token → b = target_token)
                ∧ (a ≠ unk_token → b = a)) s t)
          sentences (replace_unk sentences unk_token target_token)
      ∧ List.Forall₂ (List.Forall₂ (fun a b =>
            (frequent_vocab_size ≤ a → b = unk_id)
              ∧ (a < frequent_vocab_size → b = a)))
          ids (remove_invalid_vocab ids frequent_vocab_size unk_id) := by
  refine ⟨by simp [replace_unk], ?_, ?_⟩
  · rw [replace_unk, List.forall₂_map_right_iff, List.forall₂_same]
    intro s _
    refine ⟨by simp, ?_⟩
    rw [List.forall₂_map_right_iff, List.forall₂_same]
    intro a _
    by_cases h : a = unk_token <;> simp [h]
  · rw [remove_invalid_vocab, List.forall₂_map_right_iff, List.forall₂_same]
    intro s _
    rw [List.forall₂_map_right_iff, List.forall₂_same]
    intro a _
    by_cases h : frequent_vocab_size ≤ a
    · simp [h]
    · simp [h, Nat.lt_of_not_le h]

theorem restore_sessions_go_spec {α : Type} (sessions : List (List α))
    (pre : List α) :
    restore_sessions_go (pre ++ sessions.flatten) (sessions.map List.length)
      pre.length = sessions := by
  induction sessions generalizing pre with
  | nil => simp [restore_sessions_go]
  | cons s rest ih =>
    simp only [List.map_cons, restore_sessions_go, List.flatten_cons]
    have hd : ((pre ++ (s ++ rest.flatten)).drop pre.length).take s.length = s := by
      rw [List.drop_left, List.take_left]
    rw [hd]
    have h := ih (pre ++ s)
    rw [List.length_append, List.append_assoc] at h
    rw [h]

/-- Claim C9: round-trip of session flattening: for every list of sessions,
`restore_sessions` applied to the pair produced by `chain_sessions` returns
the original list of sessions. -/
theorem claim_C9_chain_restore_round_trip {α : Type} (sessions : List (List α)) :
    restore_sessions (chain_sessions sessions).1 (chain_sessions sessions).2
      = sessions := by
  have h := restore_sessions_go_spec sessions []
  simpa [restore_sessions, chain_sessions] using h

/-- Claim C10: `trim_before_target` returns the longest initial segment of
the list strictly before the first occurrence of `target` (formalised as
`takeWhile`), and when `target` does not occur the original list is
returned unchanged. -/
theorem claim_C10_trim_before_target (lists : List Nat) (target : Nat) :
    trim_before_target lists target = lists.takeWhile (fun x => x != target)
      ∧ (target ∉ lists → trim_before_target lists target = lists) := by
  constructor
  · induction lists with
    | nil => rfl
    | cons a rest ih =>
      by_cases ha : a = target
      · subst ha
        simp [trim_before_target]
      · have hne : (a == target) = false := by simp [ha]
        simp only [trim_before_target, List.findIdx?_cons, hne, Bool.false_eq_true,
          if_false, List.findIdx?_succ, List.takeWhile_cons, bne, Bool.not_false,
          if_true]
        simp only [trim_before_target] at ih
        cases hidx : rest.findIdx? (fun x => x == target) with
        | none =>
          rw [hidx] at ih
          simp only [hidx, Option.map_none']
          exact congrArg (a :: ·) ih
        | some i =>
          rw [hidx] at ih
          simp only [hidx, Option.map_some', List.take_succ_cons]
          exact congrArg (a :: ·) ih
  · intro hnotin
    have : lists.findIdx? (fun x => x == target) = none := by
      rw [List.findIdx?_eq_none_iff]
      intro x hx
      simp only [beq_eq_false_iff_ne, ne_eq, beq_iff_eq]
      intro hxeq
      exact hnotin (hxeq ▸ hx)
    simp [trim_before_target, this]

/-- Claim C10 witness at a concrete input: the target is absent, so the
list comes back unchanged. -/
theorem claim_C10_witness :
    (5 ∉ [1, 2, 3]) ∧ trim_before_target [1, 2, 3] 5 = [1, 2, 3] :=
  ⟨by decide, (claim_C10_trim_before_target [1, 2, 3] 5).2 (by decide)⟩

/-! ### Theorems for `SingleTurnDialog.__init__` -/

/-- Claim C6: `SingleTurnDialog.__init__` raises a `ValueError` when
`pretrained == 'gpt2'` and the tokenizer is not a `PretrainedTokenizer`
instance, and for every `pretrained` value other than `None` and `'gpt2'`;
in both error cases the only state set up is the recorded `_pretrained`
argument. -/
theorem claim_C6_init_value_errors :
    (single_turn_dialog_init (some "gpt2") false
        = ({ pretrainedRecorded := some (some "gpt2"),
             fieldsInitialized := false, defaultFieldSet := false },
           some "tokenize should be loaded first if you want a gpt2 dataloader"))
      ∧ (∀ p : String, p ≠ "gpt2" → ∀ b : Bool,
          single_turn_dialog_init (some p) b
            = ({ pretrainedRecorded := some (some p),
                 fieldsInitialized := false, defaultFieldSet := false },
               some ("No pretrained name " ++ p))) := by
  refine ⟨rfl, ?_⟩
  intro p hp b
  simp [single_turn_dialog_init, hp]

/-- Claim C6 witness: an unsupported pretrained name is rejected with only
`_pretrained` recorded. -/
theorem claim_C6_witness :
    ("bert" : String) ≠ "gpt2"
      ∧ single_turn_dialog_init (some "bert") true
          = ({ pretrainedRecorded := some (some "bert"),
               fieldsInitialized := false, defaultFieldSet := false },
             some ("No pretrained name " ++ "bert")) :=
  ⟨by decide, claim_C6_init_value_errors.2 "bert" (by decide) true⟩

/-! ### Theorems for the docstring-inheritance machinery -/

theorem class_doc_loop_eq_find (l : List PyClass) (doc : Option String) :
    class_doc_loop l doc
      = match l.find? (fun c => truthy_doc c.metaDoc) with
        | some c => c.metaDoc
        | none => doc := by
  induction l with
  | nil => rfl
  | cons a rest ih =>
    by_cases ha : truthy_doc a.metaDoc = true
    · simp [class_doc_loop, ha, List.find?_cons_of_pos]
    · simp [class_doc_loop, ha, List.find?_cons_of_neg, ih]

theorem attr_doc_loop_eq_findSome (l : List PyClass) (attr : String) :
    attr_doc_loop l attr
      = ((l.filter (fun c => c.attrs.contains attr)).findSome?
          (fun c => (c.attrMetaDocs.find? (fun kv => kv.1 == attr)).map
            Prod.snd)).getD "" := by
  induction l with
  | nil => rfl
  | cons a rest ih =>
    simp only [attr_doc_loop, List.filter_cons]
    cases ha : a.attrs.contains attr with
    | false =>
      rw [if_neg Bool.false_ne_true, if_neg Bool.false_ne_true, ih]
    | true =>
      rw [if_pos rfl, if_pos rfl, List.findSome?_cons]
      cases hf : a.attrMetaDocs.find? (fun kv => kv.1 == attr) with
      | some kv => rfl
      | none => exact ih

/-- Claim C3: a class created by `DocStringInheritor` that defines a
non-empty docstring keeps it; one that does not gets the `META_DOC` of the
first class, in the order of the declared bases and each base's MRO, whose
`META_DOC` is non-empty, and is left unchanged when no such class exists;
the same rule applies per attribute through `META_DOC_FOR_ATTRIBUTES`, the
first MRO class having the attribute and a table entry for it providing the
docstring. -/
theorem claim_C3_docstring_inheritance :
    (∀ (d : String) (bases_mros : List (List PyClass)), d ≠ "" →
        inherit_class_doc (some d) bases_mros = some d)
      ∧ (∀ (doc : Option String) (bases_mros : List (List PyClass)) (c : PyClass),
          truthy_doc doc = false →
          bases_mros.flatten.find? (fun c => truthy_doc c.metaDoc) = some c →
          inherit_class_doc doc bases_mros = c.metaDoc)
      ∧ (∀ (doc : Option String) (bases_mros : List (List PyClass)),
          truthy_doc doc = false →
          bases_mros.flatten.find? (fun c => truthy_doc c.metaDoc) = none →
          inherit_class_doc doc bases_mros = doc)
      ∧ (∀ (d : String) (attr : String) (bases_mros : List (List PyClass)),
          d ≠ "" → inherit_attr_doc (some d) attr bases_mros = d)
      ∧ (∀ (doc : Option String) (attr : String)
          (bases_mros : List (List PyClass)), truthy_doc doc = false →
          inherit_attr_doc doc attr bases_mros
            = ((bases_mros.flatten.filter (fun c => c.attrs.contains attr)).findSome?
                (fun c => (c.attrMetaDocs.find? (fun kv => kv.1 == attr)).map
                  Prod.snd)).getD "") := by
  refine ⟨?_, ?_, ?_, ?_, ?_⟩
  · intro d bases_mros hd
    have ht : truthy_doc (some d) = true := by
      simp [truthy_doc]
      exact hd
    simp [inherit_class_doc, ht]
  · intro doc bases_mros c hdoc hfind
    rw [inherit_class_doc, hdoc]
    simp only [Bool.false_eq_true, if_false]
    rw [class_doc_loop_eq_find, hfind]
  · intro doc bases_mros hdoc hfind
    rw [inherit_class_doc, hdoc]
    simp only [Bool.false_eq_true, if_false]
    rw [class_doc_loop_eq_find, hfind]
  · intro d attr bases_mros hd
    have ht : truthy_doc (some d) = true := by
      simp [truthy_doc]
      exact hd
    simp [inherit_attr_doc, ht]
  · intro doc attr bases_mros hdoc
    rw [inherit_attr_doc, hdoc]
    simp only [Bool.false_eq_true, if_false]
    exact attr_doc_loop_eq_findSome _ _

/-- Claim C3 witness: with a base MRO holding an empty-doc class followed by
a documented class, an own non-empty docstring is kept, a missing docstring
is inherited from the first documented class, and a missing attribute
docstring is inherited through `META_DOC_FOR_ATTRIBUTES`. -/
theorem claim_C3_witness :
    ("own doc" : String) ≠ ""
      ∧ inherit_class_doc (some "own doc") demo_bases_mros = some "own doc"
      ∧ inherit_class_doc none demo_bases_mros = some "base doc"
      ∧ inherit_attr_doc none "get_batch" demo_bases_mros = "gb doc" :=
  ⟨by decide,
   claim_C3_docstring_inheritance.1 "own doc" demo_bases_mros (by decide),
   claim_C3_docstring_inheritance.2.1 none demo_bases_mros demo_base_class
     rfl (by decide),
   claim_C3_docstring_inheritance.2.2.2.2 none "get_batch" demo_bases_mros rfl⟩

/-! ### Theorems for `LoadClassInterface.load_class` -/

theorem load_class_loop_error_of_match (l : List ClassTree) (cn : String)
    (r : ClassTree)
    (h : ∃ c ∈ l, (lower_string c.name == lower_string cn) = true) :
    is_load_error (load_class_loop l cn (some r)) = true := by
  induction l generalizing r with
  | nil =>
    obtain ⟨c, hc, _⟩ := h
    cases hc
  | cons a rest ih =>
    obtain ⟨c, hc, hmatch⟩ := h
    by_cases ha : (lower_string a.name == lower_string cn) = true
    · simp [load_class_loop, ha, is_load_error]
    · rcases List.mem_cons.mp hc with rfl | hc2
      · exact absurd hmatch ha
      · have ha2 : (lower_string a.name == lower_string cn) = false := by
          simpa using ha
        simp only [load_class_loop, ha2, Bool.false_eq_true, if_false]
        exact ih r ⟨c, hc2, hmatch⟩

theorem load_class_loop_error_of_two (l : List ClassTree) (cn : String)
    (h : 2 ≤ l.countP (fun c => lower_string c.name == lower_string cn)) :
    is_load_error (load_class_loop l cn none) = true := by
  induction l with
  | nil => simp [List.countP_nil] at h
  | cons a rest ih =>
    by_cases ha : (lower_string a.name == lower_string cn) = true
    · simp only [load_class_loop, ha, if_true]
      rw [List.countP_cons_of_pos
        (fun c => lower_string c.name == lower_string cn) rest ha] at h
      have h1 : 0 < rest.countP
          (fun c => lower_string c.name == lower_string cn) := by omega
      obtain ⟨c, hc, hm⟩ := List.countP_pos_iff.mp h1
      exact load_class_loop_error_of_match rest cn a ⟨c, hc, hm⟩
    · have ha2 : (lower_string a.name == lower_string cn) = false := by
        simpa using ha
      rw [List.countP_cons_of_neg
        (fun c => lower_string c.name == lower_string cn) rest ha] at h
      simp only [load_class_loop, ha2, Bool.false_eq_true, if_false]
      exact ih h

/-- Claim C4: when the hierarchy contains two distinct subclasses whose
names match the requested name case-insensitively, `load_class` raises an
exception instead of returning either class. -/
theorem claim_C4_load_class_duplicate (cls : ClassTree) (class_name : String)
    (h : 2 ≤ (get_all_subclasses cls).countP
        (fun c => lower_string c.name == lower_string class_name)) :
    is_load_error (load_class cls class_name) = true :=
  load_class_loop_error_of_two _ _ h

/-- Claim C4 witness: `OpenSubtitles` and `opensubtitles` collide, so the
lookup raises. -/
theorem claim_C4_witness :
    2 ≤ (get_all_subclasses demo_dup_hierarchy).countP
        (fun c => lower_string c.name == lower_string "OpenSubtitles")
      ∧ is_load_error (load_class demo_dup_hierarchy "OpenSubtitles") = true :=
  ⟨by decide, claim_C4_load_class_duplicate demo_dup_hierarchy "OpenSubtitles"
    (by decide)⟩

theorem load_class_loop_no_match (l : List ClassTree) (cn : String)
    (r : Option ClassTree)
    (h : ∀ c ∈ l, (lower_string c.name == lower_string cn) = false) :
    load_class_loop l cn r = .ok r := by
  induction l generalizing r with
  | nil => rfl
  | cons a rest ih =>
    have ha := h a (List.mem_cons_self a rest)
    simp only [load_class_loop, ha, Bool.false_eq_true, if_false]
    exact ih r (fun c hc => h c (List.mem_cons_of_mem a hc))

/-- Claim C5 counterexample: with a hierarchy containing only
`SingleTurnDialog`, looking up a name that matches no subclass returns
`None` normally; no exception is raised, contrary to the claim. -/
theorem claim_C5_counterexample :
    load_class demo_hierarchy "unknowndataset" = Except.ok none := rfl

/-- Claim C5 as amended: for every class name matching no subclass
case-insensitively, `load_class` returns `None` (it does not raise; callers
must detect the unknown name themselves). -/
theorem claim_C5_load_class_no_match (cls : ClassTree) (class_name : String)
    (h : ∀ c ∈ get_all_subclasses cls,
        (lower_string c.name == lower_string class_name) = false) :
    load_class cls class_name = .ok none :=
  load_class_loop_no_match _ _ none h

/-- Claim C5 witness: the demo hierarchy has no class named
`unknowndataset`, and the lookup returns `None`. -/
theorem claim_C5_witness :
    (∀ c ∈ get_all_subclasses demo_hierarchy,
        (lower_string c.name == lower_string "unknowndataset") = false)
      ∧ load_class demo_hierarchy "unknowndataset" = .ok none :=
  ⟨by decide, claim_C5_load_class_no_match demo_hierarchy "unknowndataset"
    (by decide)⟩

/-! ### Theorems for the vocabulary tiers and the CLI config store -/

/-- Claim C7: the vocabulary tiers partition the tokens: a token is frequent
exactly when its training-set count reaches `min_frequent_vocab_times`, rare
exactly when it is not frequent and its whole-dataset count reaches
`min_rare_vocab_times`, and unknown exactly in the remaining case, so each
token belongs to exactly one tier. -/
theorem claim_C7_vocab_tier_partition (train_set whole_set : List (List Nat))
    (min_frequent_vocab_times min_rare_vocab_times tok : Nat) :
    (corpus_vocab_tier train_set whole_set min_frequent_vocab_times
          min_rare_vocab_times tok = .frequent
        ↔ min_frequent_vocab_times ≤ train_set.flatten.count tok)
      ∧ (corpus_vocab_tier train_set whole_set min_frequent_vocab_times
          min_rare_vocab_times tok = .rare
        ↔ train_set.flatten.count tok < min_frequent_vocab_times
            ∧ min_rare_vocab_times ≤ whole_set.flatten.count tok)
      ∧ (corpus_vocab_tier train_set whole_set min_frequent_vocab_times
          min_rare_vocab_times tok = .unknown
        ↔ train_set.flatten.count tok < min_frequent_vocab_times
            ∧ whole_set.flatten.count tok < min_rare_vocab_times) := by
  unfold corpus_vocab_tier vocab_tier
  by_cases h1 : min_frequent_vocab_times ≤ train_set.flatten.count tok
    <;> by_cases h2 : min_rare_vocab_times ≤ whole_set.flatten.count tok
    <;> simp [h1, h2]
    <;> omega

/-- Claim C8: CLI config round-trip: loading from an empty store gives
`None`, loading after a set gives exactly the value set with the words
joined by single spaces, and in particular setting `123` then loading gives
`123`, and setting `123 456` gives `123 456`. -/
theorem claim_C8_config_round_trip :
    (∀ key : String, config_load [] key = none)
      ∧ (∀ (store : List (String × String)) (key : String)
          (words : List String),
          config_load (config_set store key words) key
            = some (String.intercalate " " words))
      ∧ config_load (config_set [] "test_variable" ["123"]) "test_variable"
          = some "123"
      ∧ config_load
          (config_set (config_set [] "test_variable" ["123"])
            "test_variable" ["123", "456"]) "test_variable"
          = some "123 456" := by
  refine ⟨fun key => rfl, ?_, rfl, rfl⟩
  intro store key words
  simp [config_load, config_set]

end Cotk
